import Mathlib

/-!
Shallow embedding of `simple_threat_report.py` (Infoblox-API/simple_threat_report)
and verification of its specification claims.

Modelling conventions:
 - Python strings are Lean `String`; `str.lower()` is per-character `Char.toLower`
   (ASCII lowering, which is what matters for the category/country tokens here);
   the Python substring operator `a in b` is `strContains` on character lists.
 - Timestamps (Python naive `datetime`) are abstract `Int` instants ordered by `<`;
   `datetime.datetime.fromtimestamp(0)` — the accumulator seed — is `0`, and the
   empty-string output `''` standing for "absent" is `Option.none`.
 - A remote HTTP response is either `.failure status body` (status not in
   `return_codes_ok`) or `.success threats` (a 2xx response whose parsed JSON
   carries the listed `threat` records; a missing or empty `threat` construct is
   the empty list, matching the falsiness test `if parsed_json.get('threat'):`).
 - The network client `bloxone.b1td` is a structure of abstract query functions;
   `bloxone.utils.strip_host` is an abstract `String → String` oracle.
 - Python `dict`s are association lists with insertion-order update semantics
   (`dictInsert`), and `collections.Counter` is an association list to counts
   preserving first-occurrence key order (`counterAdd` / `getkeys`).
 - Python exceptions that escape a function (`FileNotFoundError` from `open`,
   `KeyError` from dict indexing) are `Except.error` outcomes.
-/

namespace ThreatReport

/-- Python `str(line.rstrip())`: drop trailing whitespace characters. -/
def pyRstrip (s : String) : String :=
  String.mk ((s.toList.reverse.dropWhile Char.isWhitespace).reverse)

/-- Python `str.lower()` as a character list (per-character ASCII lowering). -/
def pyLower (s : String) : List Char :=
  s.toList.map Char.toLower

/-- Test whether the first list is an initial segment of the second. -/
def leadMatch : List Char → List Char → Bool
  | [], _ => true
  | _ :: _, [] => false
  | a :: as, b :: bs => a == b && leadMatch as bs

/-- Python substring operator `needle in hay` on character lists. -/
def strContains (needle : List Char) : List Char → Bool
  | [] => leadMatch needle []
  | c :: t => leadMatch needle (c :: t) || strContains needle t

/-- Embedding of `checkwebcat(webcats, block_list)` (lines 515-532). The first
argument is `web_categories.get(item)`, which may be Python `None`; both `None`
and the empty list fail the truthiness test `if webcats:`. The nested loops with
`break` compute: some block-list entry occurs, lowercased, inside some lowercased
category name. -/
def checkwebcat (webcats : Option (List String)) (block_list : List String) : Bool :=
  match webcats with
  | none => false
  | some cats =>
      if cats.isEmpty then false
      else
        block_list.any fun item =>
          cats.any fun cat => strContains (pyLower item) (pyLower cat)

/-- Embedding of `checkcountry(domain, country_codes)` (lines 535-546): true iff
the domain string is non-empty and some country-code token is a (case-sensitive)
substring of it. -/
def checkcountry (domain : String) (country_codes : List String) : Bool :=
  if domain.isEmpty then false
  else country_codes.any fun co => strContains co.toList domain.toList

/-- Embedding of `load_list(filename)` (lines 504-512). The file system is an
association list from file name to the file's lines. `open(filename)` on a
missing file raises `FileNotFoundError` (there is no handler in `load_list`),
modelled as `Except.error`; otherwise every line is `rstrip`ped and collected. -/
def load_list (fs : List (String × List String)) (filename : String) :
    Except String (List String) :=
  match fs.lookup filename with
  | none => Except.error "FileNotFoundError"
  | some lines => Except.ok (lines.map pyRstrip)

theorem leadMatch_iff (n : List Char) :
    ∀ h : List Char, leadMatch n h = true ↔ ∃ r, h = n ++ r := by
  induction n with
  | nil =>
      intro h
      simp [leadMatch]
  | cons a as ih =>
      intro h
      cases h with
      | nil =>
          simp [leadMatch]
      | cons b bs =>
          simp only [leadMatch, Bool.and_eq_true, beq_iff_eq, ih bs]
          constructor
          · rintro ⟨rfl, r, rfl⟩
            exact ⟨r, rfl⟩
          · rintro ⟨r, hr⟩
            cases hr
            exact ⟨rfl, r, rfl⟩

theorem strContains_iff (n : List Char) :
    ∀ h : List Char, strContains n h = true ↔ ∃ l r, h = l ++ n ++ r := by
  intro h
  induction h with
  | nil =>
      simp only [strContains, leadMatch_iff]
      constructor
      · rintro ⟨r, hr⟩
        exact ⟨[], r, hr⟩
      · rintro ⟨l, r, hr⟩
        rcases List.append_eq_nil.mp (List.append_eq_nil.mp hr.symm).1 with ⟨h1, h2⟩
        exact ⟨r, by simp [h2, (List.append_eq_nil.mp hr.symm).2, h1]⟩
  | cons c t ih =>
      simp only [strContains, Bool.or_eq_true, leadMatch_iff, ih]
      constructor
      · rintro (⟨r, hr⟩ | ⟨l, r, hr⟩)
        · exact ⟨[], r, by simp [hr]⟩
        · exact ⟨c :: l, r, by simp [hr]⟩
      · rintro ⟨l, r, hr⟩
        cases l with
        | nil =>
            exact Or.inl ⟨r, by simpa using hr⟩
        | cons x xs =>
            right
            simp only [List.cons_append, List.append_assoc, List.cons.injEq] at hr
            exact ⟨xs, r, by simp [hr.2]⟩

/-- One threat record of a TIDE response: `threat['profile']`, `threat['class']`,
the parsed `threat['imported']` timestamp, and the optional parsed
`threat['expiration']` timestamp (`"expiration" in threat.keys()`). -/
structure Threat where
  profile : String
  tclass : String
  imported : Int
  expiration : Option Int
deriving DecidableEq, Repr

/-- A remote TIDE response: a non-success status with its body, or a successful
response carrying the parsed `threat` record list (missing or empty `threat`
construct is the empty list). -/
inductive TideResponse where
  | failure (status : Int) (body : String)
  | success (threats : List Threat)
deriving DecidableEq, Repr

/-- A Dossier web-categorisation response for `get_web_categories`: a non-success
status, or the list of category names in `results[0].data.results`. -/
inductive DossierResponse where
  | failure (status : Int) (body : String)
  | success (names : List String)
deriving DecidableEq, Repr

/-- The `bloxone.b1td` client, abstracted to its three query methods, each a
function of query type and query string. -/
structure B1TD where
  querytidestate : String → String → TideResponse
  querytide : String → String → TideResponse
  dossierquery : String → String → DossierResponse

/-- The value slot that Python binds to `profiles`: normally a list of profile
names, but on a failed query the string `"API Exception Occurred"`. -/
inductive StrOrList where
  | str (s : String)
  | list (l : List String)
deriving DecidableEq, Repr

/-- One `collections.Counter` update `cc[k] += 1`, on an association list that
keeps first-occurrence key order (as Python dicts/Counters do). -/
def counterAdd (cc : List (String × Nat)) (k : String) : List (String × Nat) :=
  if cc.any fun p => p.1 == k then
    cc.map fun p => if p.1 == k then (p.1, p.2 + 1) else p
  else cc ++ [(k, 1)]

/-- Embedding of `getkeys(cc)` (lines 217-232): the counter's keys in order. -/
def getkeys (cc : List (String × Nat)) : List String :=
  cc.map fun p => p.1

/-- Embedding of `most_recent(t1, t2)` (lines 235-251). -/
def most_recent (t1 t2 : Int) : Int :=
  if t1 > t2 then t1 else t2

/-- Result list of `checkactive`: `[totalthreats, profiles, tclasses,
domain_checked]`. -/
structure ActiveResult where
  totalthreats : Int
  profiles : StrOrList
  tclasses : List String
  domain_checked : Bool
deriving DecidableEq, Repr

/-- Result list of `checktide`: `[totalthreats, profiles, tclasses,
last_available, last_expiration, domain_checked]`; the timestamps are `none`
where Python reports the empty string. -/
structure TideResult where
  totalthreats : Int
  profiles : StrOrList
  tclasses : List String
  last_available : Option Int
  last_expiration : Option Int
  domain_checked : Bool
deriving DecidableEq, Repr

/-- Loop state of `checkactive`'s per-threat statistics loop. -/
structure ActiveAcc where
  totalthreats : Int
  profile_stats : List (String × Nat)
  class_stats : List (String × Nat)
deriving DecidableEq, Repr

/-- One iteration of `checkactive`'s loop over `parsed_json['threat']`. -/
def activeStep (acc : ActiveAcc) (t : Threat) : ActiveAcc :=
  { totalthreats := acc.totalthreats + 1
    profile_stats := counterAdd acc.profile_stats t.profile
    class_stats := counterAdd acc.class_stats t.tclass }

/-- Embedding of `checkactive(query, qtype, b1td, check_domain, domain_checked)`
(lines 254-324). `strip` is `bloxone.utils.strip_host`. On a non-success status
the sentinel `[-1, "API Exception Occurred", [], domain_checked]` is returned;
on a success with no threats and `check_domain` set, when the stripped parent
domain differs from the query the function recurses once with
`check_domain=False, domain_checked=True`. -/
def checkactive (query qtype : String) (b1td : B1TD) (strip : String → String)
    (check_domain : Bool) (domain_checked : Bool) : ActiveResult :=
  match b1td.querytidestate qtype query with
  | .failure _ _ =>
      { totalthreats := -1
        profiles := .str "API Exception Occurred"
        tclasses := []
        domain_checked := domain_checked }
  | .success threats =>
      if threats.isEmpty then
        match check_domain with
        | true =>
            let domain := strip query
            if domain = query then
              { totalthreats := 0, profiles := .list [], tclasses := []
                domain_checked := domain_checked }
            else
              checkactive domain qtype b1td strip false true
        | false =>
            { totalthreats := 0, profiles := .list [], tclasses := []
              domain_checked := domain_checked }
      else
        let acc := threats.foldl activeStep ⟨0, [], []⟩
        { totalthreats := acc.totalthreats
          profiles := .list (getkeys acc.profile_stats)
          tclasses := getkeys acc.class_stats
          domain_checked := domain_checked }
termination_by check_domain.toNat
decreasing_by simp

/-- Loop state of `checktide`'s per-threat statistics loop; `last_available` and
`last_expiration` are seeded with `datetime.datetime.fromtimestamp(0)`, i.e. 0. -/
structure TideAcc where
  totalthreats : Int
  profile_stats : List (String × Nat)
  class_stats : List (String × Nat)
  last_available : Int
  last_expiration : Int
deriving DecidableEq, Repr

/-- One iteration of `checktide`'s loop over `parsed_json['threat']`. -/
def tideStep (acc : TideAcc) (t : Threat) : TideAcc :=
  { totalthreats := acc.totalthreats + 1
    profile_stats := counterAdd acc.profile_stats t.profile
    class_stats := counterAdd acc.class_stats t.tclass
    last_available := most_recent acc.last_available t.imported
    last_expiration :=
      match t.expiration with
      | some e => most_recent acc.last_expiration e
      | none => acc.last_expiration }

/-- Embedding of `checktide(query, qtype, b1td, check_domain, domain_checked)`
(lines 327-426). The trailing code (lines 417-424) converts an accumulator still
at the epoch seed into the empty output, modelled as `none`; a timestamp folded
from records is reported only when it moved off the seed. In the fallback branch
the recursive call's results are copied into the locals and then rebuilt
unchanged (the recursive call has already performed its own epoch conversion, and
its reported timestamps are never the epoch, so the outer conversion is the
identity there). -/
def checktide (query qtype : String) (b1td : B1TD) (strip : String → String)
    (check_domain : Bool) (domain_checked : Bool) : TideResult :=
  match b1td.querytide qtype query with
  | .failure _ _ =>
      { totalthreats := -1
        profiles := .str "API Exception Occurred"
        tclasses := []
        last_available := none
        last_expiration := none
        domain_checked := domain_checked }
  | .success threats =>
      if threats.isEmpty then
        match check_domain with
        | true =>
            let domain := strip query
            if domain = query then
              { totalthreats := 0, profiles := .list [], tclasses := []
                last_available := none, last_expiration := none
                domain_checked := domain_checked }
            else
              checktide domain qtype b1td strip false true
        | false =>
            { totalthreats := 0, profiles := .list [], tclasses := []
              last_available := none, last_expiration := none
              domain_checked := domain_checked }
      else
        let acc := threats.foldl tideStep ⟨0, [], [], 0, 0⟩
        { totalthreats := acc.totalthreats
          profiles := .list (getkeys acc.profile_stats)
          tclasses := getkeys acc.class_stats
          last_available :=
            if acc.last_available = 0 then none else some acc.last_available
          last_expiration :=
            if acc.last_expiration = 0 then none else some acc.last_expiration
          domain_checked := domain_checked }
termination_by check_domain.toNat
decreasing_by simp

/-- Number of `b1td.querytidestate` calls `checkactive` performs: one for the
direct query, plus those of the single fallback re-query when it happens. -/
def checkactiveCalls (query qtype : String) (b1td : B1TD) (strip : String → String)
    (check_domain : Bool) : Nat :=
  match b1td.querytidestate qtype query with
  | .failure _ _ => 1
  | .success threats =>
      if threats.isEmpty then
        match check_domain with
        | true =>
            let domain := strip query
            if domain = query then 1
            else 1 + checkactiveCalls domain qtype b1td strip false
        | false => 1
      else 1
termination_by check_domain.toNat
decreasing_by simp

/-- Number of `b1td.querytide` calls `checktide` performs. -/
def checktideCalls (query qtype : String) (b1td : B1TD) (strip : String → String)
    (check_domain : Bool) : Nat :=
  match b1td.querytide qtype query with
  | .failure _ _ => 1
  | .success threats =>
      if threats.isEmpty then
        match check_domain with
        | true =>
            let domain := strip query
            if domain = query then 1
            else 1 + checktideCalls domain qtype b1td strip false
        | false => 1
      else 1
termination_by check_domain.toNat
decreasing_by simp

/-- One row of the local database as read by `checkoffline`. -/
structure DbRow where
  profile : String
  tclass : String
deriving DecidableEq, Repr

/-- Result tuple of `checkoffline`: `(totalthreats, profiles, tclasses)` —
three components only, unlike `checkactive`'s four-element list. -/
structure OfflineResult where
  totalthreats : Int
  profiles : List String
  tclasses : List String
deriving DecidableEq, Repr

/-- Embedding of `checkoffline(query, qtype, db_cursor, db_table)` (lines
429-478); `dbq` abstracts `bloxone.utils.db_query(db_cursor, db_table, ...)`. -/
def checkoffline (query qtype : String) (dbq : String → String → List DbRow) :
    OfflineResult :=
  let rows := dbq qtype query
  if rows.isEmpty then
    { totalthreats := 0, profiles := [], tclasses := [] }
  else
    let acc := rows.foldl (fun a r => activeStep a ⟨r.profile, r.tclass, 0, none⟩) ⟨0, [], []⟩
    { totalthreats := acc.totalthreats
      profiles := getkeys acc.profile_stats
      tclasses := getkeys acc.class_stats }

/-- Embedding of `get_web_categories(query, qtype, b1td)` (lines 481-501):
category names from Dossier, `['Uncategorised']` when the data list is empty,
and the initial `[]` when the call fails. -/
def get_web_categories (query qtype : String) (b1td : B1TD) : List String :=
  match b1td.dossierquery query qtype with
  | .failure _ _ => []
  | .success names => if names.isEmpty then ["Uncategorised"] else names

/-- A value stored in the `activethreats` dict: either the four-element list
produced by `checkactive` or the three-tuple produced by `checkoffline` (Python
stores both shapes in the same dict). -/
inductive ARes where
  | online (r : ActiveResult)
  | offline (r : OfflineResult)
deriving DecidableEq, Repr

/-- Python `activethreats[item][0]`. -/
def ARes.idx0 : ARes → Int
  | .online r => r.totalthreats
  | .offline r => r.totalthreats

/-- Python `activethreats[item][1]`. -/
def ARes.idx1 : ARes → StrOrList
  | .online r => r.profiles
  | .offline r => .list r.profiles

/-- Python `activethreats[item][2]`. -/
def ARes.idx2 : ARes → List String
  | .online r => r.tclasses
  | .offline r => r.tclasses

/-- The action-label selection of `gen_report`'s full-mode loop (lines 625-634):
first match wins among Active / Not Active / Category Block / Country Block,
otherwise the empty label. -/
def reportAction (activeCount totalCount : Int) (webcats : Option (List String))
    (block_categories country_codes : List String) (item : String) : String :=
  if activeCount > 0 then "Active"
  else if totalCount > 0 then "Not Active"
  else if checkwebcat webcats block_categories then "Category Block"
  else if checkcountry item country_codes then "Country Block"
  else ""

/-- One data row of the active-only report schema (4 columns, lines 577-597). -/
structure ActiveRow where
  host : String
  activeCount : Int
  profiles : StrOrList
  tclasses : List String
deriving DecidableEq, Repr

/-- One data row of the full report schema (11 columns, lines 614-653). -/
structure FullRow where
  host : String
  action : String
  activeCount : Int
  activeProfiles : StrOrList
  totalCount : Int
  totalProfiles : StrOrList
  totalClasses : List String
  lastSeen : Option Int
  lastExpiry : Option Int
  domainChecked : Bool
  webCategories : Option (List String)
deriving DecidableEq, Repr

/-- The report emitted by `gen_report`: per-row data plus the summary-line
counts — `(total, active, notActive)` in active-only mode, and
`(total, active, threats, noInfo)` in full mode. -/
inductive Report where
  | activeOnly (rows : List ActiveRow) (total active notActive : Nat)
  | full (rows : List FullRow) (total active threats noInfo : Nat)
deriving DecidableEq, Repr

/-- Active-only row for one `activethreats` entry (columns `item`,
`activethreats[item][0..2]`). -/
def activeRow (p : String × ARes) : ActiveRow :=
  { host := p.1, activeCount := p.2.idx0, profiles := p.2.idx1
    tclasses := p.2.idx2 }

/-- Full-mode row for one `activethreats` entry. Python indexes
`totalthreats[item]` directly, raising `KeyError` when the key is absent;
`web_categories.get(item)` yields `None` (here `Option.none`) when absent. -/
def fullRow (block_categories country_codes : List String)
    (web_categories : List (String × List String))
    (totalthreats : List (String × TideResult)) (p : String × ARes) :
    Except String FullRow :=
  match totalthreats.lookup p.1 with
  | none => Except.error "KeyError"
  | some t =>
      Except.ok
        { host := p.1
          action := reportAction p.2.idx0 t.totalthreats
            (web_categories.lookup p.1) block_categories country_codes p.1
          activeCount := p.2.idx0
          activeProfiles := p.2.idx1
          totalCount := t.totalthreats
          totalProfiles := t.profiles
          totalClasses := t.tclasses
          lastSeen := t.last_available
          lastExpiry := t.last_expiration
          domainChecked := t.domain_checked
          webCategories := web_categories.lookup p.1 }

/-- Embedding of `gen_report(activethreats, totalthreats, web_categories,
filehandle)` (lines 549-670), with the file system passed for the two
unconditional `load_list` calls (lines 568-569; a missing list file propagates
as an error). The branch on `len(totalthreats) == 0` selects the active-only
schema; otherwise the full schema with per-row action labels. The summary counts
`with_active` and `with_threats` are accumulated over the same loop that emits
the rows. -/
def gen_report (activethreats : List (String × ARes))
    (totalthreats : List (String × TideResult))
    (web_categories : List (String × List String))
    (fs : List (String × List String)) : Except String Report :=
  match load_list fs "block_categories" with
  | .error e => Except.error e
  | .ok block_categories =>
  match load_list fs "country_codes" with
  | .error e => Except.error e
  | .ok country_codes =>
  let total_hosts := activethreats.length
  if totalthreats.isEmpty then
    let rows := activethreats.map activeRow
    let with_active := activethreats.countP fun p => decide (0 < p.2.idx0)
    Except.ok (.activeOnly rows total_hosts with_active (total_hosts - with_active))
  else
    match activethreats.mapM
        (fullRow block_categories country_codes web_categories totalthreats) with
    | .error e => Except.error e
    | .ok rows =>
        let with_active := rows.countP fun r => decide (0 < r.activeCount)
        let with_threats := rows.countP fun r => decide (0 < r.totalCount)
        Except.ok (.full rows total_hosts with_active with_threats
          (total_hosts - with_threats))

/-- The command-line options of `main` relevant to the processing loop. -/
structure Args where
  active : Bool
  webcat : Bool
  check_domains : Bool
  localdb : Option String
deriving DecidableEq, Repr

/-- The external collaborators `main` consumes: the bloxone client, the
`strip_host` and `data_type` utilities, and the local-database query. -/
structure MainEnv where
  b1td : B1TD
  strip : String → String
  data_type : String → String
  dbq : String → String → List DbRow

/-- Python dict assignment `d[k] = v`: update in place when the key exists,
append otherwise. -/
def dictInsert (d : List (String × α)) (k : String) (v : α) : List (String × α) :=
  if d.any fun p => p.1 == k then
    d.map fun p => if p.1 == k then (k, v) else p
  else d ++ [(k, v)]

/-- The mutable state of `main`'s per-line loop, plus an instrumentation field
`history_queries` counting how many times the loop invoked `checktide`. -/
structure LoopState where
  activethreats : List (String × ARes)
  totalthreats : List (String × TideResult)
  web_cats : List (String × List String)
  bogus_lines : Nat
  history_queries : Nat

/-- One iteration of `main`'s input loop (lines 774-825): classify the stripped
line; on a valid type, query the local database or the active TIDE state, then
(unless active-only) the full TIDE history, then (for hosts, when requested) the
web categories; on an invalid type count a bogus line. -/
def processLine (env : MainEnv) (database activeonly webcat check_domain : Bool)
    (st : LoopState) (line : String) : LoopState :=
  let query := pyRstrip line
  let qtype := env.data_type query
  if qtype ≠ "invalid" then
    let aval :=
      if database then ARes.offline (checkoffline query qtype env.dbq)
      else ARes.online (checkactive query qtype env.b1td env.strip check_domain false)
    let st1 := { st with activethreats := dictInsert st.activethreats query aval }
    let st2 :=
      if activeonly then st1
      else
        let tval := checktide query qtype env.b1td env.strip check_domain false
        { st1 with
            totalthreats := dictInsert st1.totalthreats query tval
            history_queries := st1.history_queries + 1 }
    if qtype = "host" ∧ webcat then
      let wval := get_web_categories query qtype env.b1td
      { st2 with web_cats := dictInsert st2.web_cats query wval }
    else st2
  else
    { st with bogus_lines := st.bogus_lines + 1 }

/-- The loop state `main` has built when the input is exhausted. `activeonly`
is forced on whenever the local-database option is present (lines 718-722), and
the local database is used for the active lookups exactly then. -/
def mainState (args : Args) (env : MainEnv) (lines : List String) : LoopState :=
  let activeonly := args.active || args.localdb.isSome
  let database := args.localdb.isSome
  lines.foldl (processLine env database activeonly args.webcat args.check_domains)
    ⟨[], [], [], 0, 0⟩

/-- The report produced by one run of `main`'s core (process every input line,
then `gen_report`, lines 773-828). -/
def mainRun (args : Args) (env : MainEnv) (fs : List (String × List String))
    (lines : List String) : Except String Report :=
  gen_report (mainState args env lines).activethreats
    (mainState args env lines).totalthreats
    (mainState args env lines).web_cats fs

theorem checkactive_false_domain_checked (q t : String) (b : B1TD)
    (s : String → String) (dc : Bool) :
    (checkactive q t b s false dc).domain_checked = dc := by
  rw [checkactive.eq_2]
  cases b.querytidestate t q with
  | failure st bd => rfl
  | success threats => by_cases he : threats.isEmpty <;> simp [he]

theorem checktide_false_domain_checked (q t : String) (b : B1TD)
    (s : String → String) (dc : Bool) :
    (checktide q t b s false dc).domain_checked = dc := by
  rw [checktide.eq_2]
  cases b.querytide t q with
  | failure st bd => rfl
  | success threats => by_cases he : threats.isEmpty <;> simp [he]

theorem foldl_activeStep_count (R : List Threat) :
    ∀ acc : ActiveAcc,
      (R.foldl activeStep acc).totalthreats = acc.totalthreats + R.length := by
  induction R with
  | nil => intro acc; simp
  | cons hd tl ih =>
      intro acc
      simp only [List.foldl_cons, ih, activeStep, List.length_cons]
      push_cast
      ring

theorem foldl_tideStep_count (R : List Threat) :
    ∀ acc : TideAcc,
      (R.foldl tideStep acc).totalthreats = acc.totalthreats + R.length := by
  induction R with
  | nil => intro acc; simp
  | cons hd tl ih =>
      intro acc
      simp only [List.foldl_cons, ih, tideStep, List.length_cons]
      push_cast
      ring

theorem foldl_tideStep_expiration (R : List Threat) :
    ∀ acc : TideAcc, (∀ th ∈ R, th.expiration = none) →
      (R.foldl tideStep acc).last_expiration = acc.last_expiration := by
  induction R with
  | nil => intro acc _; simp
  | cons hd tl ih =>
      intro acc hR
      simp only [List.foldl_cons]
      rw [ih _ fun th ht => hR th (List.mem_cons_of_mem _ ht)]
      simp [tideStep, hR hd (List.mem_cons_self _ _)]

theorem checkactiveCalls_false (q t : String) (b : B1TD) (s : String → String) :
    checkactiveCalls q t b s false = 1 := by
  rw [checkactiveCalls.eq_2]
  cases b.querytidestate t q with
  | failure st bd => rfl
  | success threats => by_cases he : threats.isEmpty <;> simp [he]

theorem checktideCalls_false (q t : String) (b : B1TD) (s : String → String) :
    checktideCalls q t b s false = 1 := by
  rw [checktideCalls.eq_2]
  cases b.querytide t q with
  | failure st bd => rfl
  | success threats => by_cases he : threats.isEmpty <;> simp [he]

theorem checkactiveCalls_le_two (q t : String) (b : B1TD) (s : String → String)
    (cd : Bool) : checkactiveCalls q t b s cd ≤ 2 := by
  cases cd with
  | false => rw [checkactiveCalls_false]; omega
  | true =>
      rw [checkactiveCalls.eq_1]
      cases b.querytidestate t q with
      | failure st bd => simp
      | success threats =>
          by_cases he : threats.isEmpty
          · by_cases hd : s q = q <;>
              simp [he, hd, checkactiveCalls_false]
          · simp [he]

theorem checktideCalls_le_two (q t : String) (b : B1TD) (s : String → String)
    (cd : Bool) : checktideCalls q t b s cd ≤ 2 := by
  cases cd with
  | false => rw [checktideCalls_false]; omega
  | true =>
      rw [checktideCalls.eq_1]
      cases b.querytide t q with
      | failure st bd => simp
      | success threats =>
          by_cases he : threats.isEmpty
          · by_cases hd : s q = q <;>
              simp [he, hd, checktideCalls_false]
          · simp [he]

/-- C1: for every indicator processed in full mode, the action label is chosen
by evaluating exactly this priority order with first match winning: `Active` if
the active-threat count is positive; else `Not Active` if the historical-threat
count is positive; else `Category Block` if the category evaluator accepts the
indicator's categories; else `Country Block` if the country evaluator accepts
the indicator string; else the empty label. The final conjunct ties the
computation to the full-mode report rows built by `fullRow`. -/
theorem C1_action_priority (a t : Int) (w : Option (List String))
    (bc cc : List String) (item : String) :
    (0 < a → reportAction a t w bc cc item = "Active")
    ∧ (¬ 0 < a → 0 < t → reportAction a t w bc cc item = "Not Active")
    ∧ (¬ 0 < a → ¬ 0 < t → checkwebcat w bc = true →
        reportAction a t w bc cc item = "Category Block")
    ∧ (¬ 0 < a → ¬ 0 < t → checkwebcat w bc = false → checkcountry item cc = true →
        reportAction a t w bc cc item = "Country Block")
    ∧ (¬ 0 < a → ¬ 0 < t → checkwebcat w bc = false → checkcountry item cc = false →
        reportAction a t w bc cc item = "")
    ∧ (∀ (wcs : List (String × List String)) (tts : List (String × TideResult))
        (p : String × ARes) (row : FullRow),
        fullRow bc cc wcs tts p = Except.ok row →
        row.action = reportAction p.2.idx0 row.totalCount (wcs.lookup p.1) bc cc p.1) := by
  refine ⟨?_, ?_, ?_, ?_, ?_, ?_⟩
  · intro h; simp [reportAction, h]
  · intro h1 h2; simp [reportAction, h1, h2]
  · intro h1 h2 h3; simp [reportAction, h1, h2, h3]
  · intro h1 h2 h3 h4; simp [reportAction, h1, h2, h3, h4]
  · intro h1 h2 h3 h4; simp [reportAction, h1, h2, h3, h4]
  · intro wcs tts p row hrow
    unfold fullRow at hrow
    cases hl : tts.lookup p.1 with
    | none => rw [hl] at hrow; cases hrow
    | some tr =>
        rw [hl] at hrow
        cases hrow
        rfl

/-- Witness for C1 at concrete inputs covering each branch of the priority
order. -/
theorem C1_action_priority_witness :
    reportAction 2 5 (some ["Malware-ish"]) ["malware"] [".ru"] "site.ru" = "Active"
    ∧ reportAction 0 3 (some ["Malware-ish"]) ["malware"] [".ru"] "site.ru" = "Not Active"
    ∧ reportAction (-1) 0 (some ["Malware-ish"]) ["malware"] [".ru"] "site.ru" = "Category Block"
    ∧ reportAction 0 0 (some ["News"]) ["malware"] [".ru"] "site.ru" = "Country Block"
    ∧ reportAction 0 0 (some ["News"]) ["malware"] [".cn"] "site.ru" = "" := by
  refine ⟨?_, ?_, ?_, ?_, ?_⟩
  · exact (C1_action_priority 2 5 (some ["Malware-ish"]) ["malware"] [".ru"]
      "site.ru").1 (by decide)
  · exact (C1_action_priority 0 3 (some ["Malware-ish"]) ["malware"] [".ru"]
      "site.ru").2.1 (by decide) (by decide)
  · exact (C1_action_priority (-1) 0 (some ["Malware-ish"]) ["malware"] [".ru"]
      "site.ru").2.2.1 (by decide) (by decide) (by decide)
  · exact (C1_action_priority 0 0 (some ["News"]) ["malware"] [".ru"]
      "site.ru").2.2.2.1 (by decide) (by decide) (by decide) (by decide)
  · exact (C1_action_priority 0 0 (some ["News"]) ["malware"] [".cn"]
      "site.ru").2.2.2.2.1 (by decide) (by decide) (by decide) (by decide)

/-- C3: the fallback re-query is made with fallback disabled, so a fallback call
never itself triggers another fallback; with fallback disabled exactly one
adapter query is issued, and with fallback enabled at most two are, bounding the
recursion depth of `checkactive` and `checktide` at 1. -/
theorem C3_fallback_depth (q t : String) (b : B1TD) (s : String → String)
    (cd : Bool) :
    checkactiveCalls q t b s false = 1
    ∧ checktideCalls q t b s false = 1
    ∧ checkactiveCalls q t b s cd ≤ 2
    ∧ checktideCalls q t b s cd ≤ 2 :=
  ⟨checkactiveCalls_false q t b s, checktideCalls_false q t b s,
   checkactiveCalls_le_two q t b s cd, checktideCalls_le_two q t b s cd⟩

/-- C8: `checkwebcat(categories, block_list)` returns true iff some block-list
entry occurs as a case-insensitive substring within some category name (i.e. the
lowercased category splits around the lowercased entry); an empty category list
— or the `None` that `web_categories.get` yields for an absent key — always
yields false. -/
theorem C8_checkwebcat_iff :
    (∀ (cats : List String) (bl : List String),
      checkwebcat (some cats) bl = true ↔
        ∃ b ∈ bl, ∃ c ∈ cats, ∃ l r, pyLower c = l ++ pyLower b ++ r)
    ∧ (∀ bl, checkwebcat (some []) bl = false)
    ∧ (∀ bl, checkwebcat none bl = false) := by
  refine ⟨?_, ?_, ?_⟩
  · intro cats bl
    unfold checkwebcat
    by_cases h : cats.isEmpty
    · rw [List.isEmpty_iff] at h
      subst h
      simp
    · simp [h, List.any_eq_true, strContains_iff]
  · intro bl; simp [checkwebcat]
  · intro bl; simp [checkwebcat]

/-- Witness for C8: the spec's own example, `"malware"` inside `"Malware-ish"`. -/
theorem C8_checkwebcat_iff_witness :
    checkwebcat (some ["Malware-ish"]) ["malware"] = true := by
  refine (C8_checkwebcat_iff.1 ["Malware-ish"] ["malware"]).mpr ?_
  refine ⟨"malware", by simp, "Malware-ish", by simp, [], "-ish".toList, by decide⟩

/-- C5 counterexample: `load_list` on an absent file does not yield an empty
sequence — it raises (modelled: returns) a `FileNotFoundError`, because
`open(filename)` in `load_list` has no exception handler. -/
theorem C5_counterexample :
    load_list [] "block_categories" = Except.error "FileNotFoundError"
    ∧ load_list [] "block_categories" ≠ Except.ok [] := by
  constructor
  · rfl
  · intro h
    simp [load_list] at h

/-- C5 as amended: a missing block-list file makes `load_list` raise a
`FileNotFoundError` (so `gen_report` aborts; the evaluators are never reached),
rather than yielding an empty list; an evaluator that is handed an empty block
list does always return false. -/
theorem C5_amended_missing_list (fs : List (String × List String)) (name : String)
    (h : fs.lookup name = none) :
    load_list fs name = Except.error "FileNotFoundError"
    ∧ (∀ cats, checkwebcat cats [] = false)
    ∧ (∀ d, checkcountry d [] = false) := by
  refine ⟨?_, ?_, ?_⟩
  · unfold load_list
    rw [h]
  · intro cats
    cases cats with
    | none => rfl
    | some l => by_cases hl : l.isEmpty <;> simp [checkwebcat, hl]
  · intro d
    by_cases hd : d.isEmpty <;> simp [checkcountry, hd]

/-- Witness for the amended C5 on a concrete empty file system. -/
theorem C5_amended_missing_list_witness :
    load_list [] "country_codes" = Except.error "FileNotFoundError"
    ∧ checkwebcat (some ["News"]) [] = false
    ∧ checkcountry "site.ru" [] = false := by
  have h := C5_amended_missing_list [] "country_codes" rfl
  exact ⟨h.1, h.2.1 (some ["News"]), h.2.2 "site.ru"⟩

/-- C2: on a remote non-success status, both adapters return the sentinel
count `-1` with profile message `"API Exception Occurred"`, and that result is
distinct from the zero-results outcome (count `0` with empty profile list), so
a failed query is never reported as "no threat found". -/
theorem C2_failure_sentinel (q t : String) (b : B1TD) (s : String → String)
    (cd dc : Bool) (st1 st2 : Int) (bd1 bd2 : String)
    (h1 : b.querytidestate t q = TideResponse.failure st1 bd1)
    (h2 : b.querytide t q = TideResponse.failure st2 bd2) :
    checkactive q t b s cd dc =
      { totalthreats := -1, profiles := .str "API Exception Occurred"
        tclasses := [], domain_checked := dc }
    ∧ checktide q t b s cd dc =
      { totalthreats := -1, profiles := .str "API Exception Occurred"
        tclasses := [], last_available := none, last_expiration := none
        domain_checked := dc }
    ∧ (checkactive q t b s cd dc).totalthreats ≠ 0
    ∧ (checkactive q t b s cd dc).profiles ≠ .list []
    ∧ (checktide q t b s cd dc).totalthreats ≠ 0
    ∧ (checktide q t b s cd dc).profiles ≠ .list [] := by
  have ha : checkactive q t b s cd dc =
      { totalthreats := -1, profiles := .str "API Exception Occurred"
        tclasses := [], domain_checked := dc } := by
    cases cd with
    | false => rw [checkactive.eq_2, h1]
    | true => rw [checkactive.eq_1, h1]
  have hb : checktide q t b s cd dc =
      { totalthreats := -1, profiles := .str "API Exception Occurred"
        tclasses := [], last_available := none, last_expiration := none
        domain_checked := dc } := by
    cases cd with
    | false => rw [checktide.eq_2, h2]
    | true => rw [checktide.eq_1, h2]
  refine ⟨ha, hb, ?_, ?_, ?_, ?_⟩ <;> simp [ha, hb]

/-- Witness for C2 with a client whose every remote call fails. -/
theorem C2_failure_sentinel_witness :
    checkactive "site.ru" "host"
        ⟨fun _ _ => .failure 500 "err", fun _ _ => .failure 500 "err",
         fun _ _ => .failure 500 "err"⟩ (fun x => x) true false =
      { totalthreats := -1, profiles := .str "API Exception Occurred"
        tclasses := [], domain_checked := false } :=
  (C2_failure_sentinel "site.ru" "host" _ (fun x => x) true false
    500 500 "err" "err" rfl rfl).1

/-- C4: with zero direct records and fallback enabled, when the stripped parent
domain differs from the indicator the adapters re-query the parent domain and
the returned summary carries `domain_checked = true`; when the stripped parent
domain equals the indicator no fallback call is made (exactly one adapter call)
and the summary stays `count = 0, domain_checked = false`. -/
theorem C4_domain_fallback (q t : String) (b : B1TD) (s : String → String)
    (h1 : b.querytidestate t q = TideResponse.success [])
    (h2 : b.querytide t q = TideResponse.success []) :
    (s q ≠ q →
      checkactive q t b s true false = checkactive (s q) t b s false true
      ∧ checktide q t b s true false = checktide (s q) t b s false true
      ∧ (checkactive q t b s true false).domain_checked = true
      ∧ (checktide q t b s true false).domain_checked = true)
    ∧ (s q = q →
      checkactive q t b s true false =
        { totalthreats := 0, profiles := .list [], tclasses := []
          domain_checked := false }
      ∧ checktide q t b s true false =
        { totalthreats := 0, profiles := .list [], tclasses := []
          last_available := none, last_expiration := none
          domain_checked := false }
      ∧ checkactiveCalls q t b s true = 1
      ∧ checktideCalls q t b s true = 1) := by
  constructor
  · intro hne
    have ha : checkactive q t b s true false = checkactive (s q) t b s false true := by
      rw [checkactive.eq_1, h1]
      simp [hne]
    have hb : checktide q t b s true false = checktide (s q) t b s false true := by
      rw [checktide.eq_1, h2]
      simp [hne]
    refine ⟨ha, hb, ?_, ?_⟩
    · rw [ha, checkactive_false_domain_checked]
    · rw [hb, checktide_false_domain_checked]
  · intro heq
    refine ⟨?_, ?_, ?_, ?_⟩
    · rw [checkactive.eq_1, h1]
      simp [heq]
    · rw [checktide.eq_1, h2]
      simp [heq]
    · rw [checkactiveCalls.eq_1, h1]
      simp [heq]
    · rw [checktideCalls.eq_1, h2]
      simp [heq]

/-- Witness for C4: a host whose direct lookups are empty, with a stripping
oracle that removes the first label. -/
theorem C4_domain_fallback_witness :
    (checkactive "www.example.com" "host"
        ⟨fun _ _ => .success [], fun _ _ => .success [],
         fun _ _ => .failure 500 "err"⟩ (fun _ => "example.com")
        true false).domain_checked = true :=
  ((C4_domain_fallback "www.example.com" "host" _ (fun _ => "example.com")
      rfl rfl).1 (by decide)).2.2.1

/-- C6: for the record set returned by one (non-fallback) adapter call, the
aggregated count equals the number of records; aggregating the empty set yields
count 0 with empty profiles, empty classes, and (for the full-history adapter)
both timestamps absent. -/
theorem C6_aggregator_count (q t : String) (b : B1TD) (s : String → String)
    (dc : Bool) (R R2 : List Threat)
    (h1 : b.querytidestate t q = TideResponse.success R)
    (h2 : b.querytide t q = TideResponse.success R2) :
    (checkactive q t b s false dc).totalthreats = R.length
    ∧ (checktide q t b s false dc).totalthreats = R2.length
    ∧ (R = [] → checkactive q t b s false dc =
        { totalthreats := 0, profiles := .list [], tclasses := []
          domain_checked := dc })
    ∧ (R2 = [] → checktide q t b s false dc =
        { totalthreats := 0, profiles := .list [], tclasses := []
          last_available := none, last_expiration := none
          domain_checked := dc }) := by
  refine ⟨?_, ?_, ?_, ?_⟩
  · rw [checkactive.eq_2, h1]
    by_cases he : R.isEmpty
    · rw [List.isEmpty_iff] at he
      subst he
      simp
    · simp only [he, Bool.false_eq_true, if_false]
      simp [foldl_activeStep_count]
  · rw [checktide.eq_2, h2]
    by_cases he : R2.isEmpty
    · rw [List.isEmpty_iff] at he
      subst he
      simp
    · simp only [he, Bool.false_eq_true, if_false]
      simp [foldl_tideStep_count]
  · intro hR
    subst hR
    rw [checkactive.eq_2, h1]
    simp
  · intro hR
    subst hR
    rw [checktide.eq_2, h2]
    simp

/-- Witness for C6 with a two-record active response and an empty history
response. -/
theorem C6_aggregator_count_witness :
    (checkactive "site.ru" "host"
        ⟨fun _ _ => .success [⟨"p1", "c1", 5, none⟩, ⟨"p2", "c2", 7, some 9⟩],
         fun _ _ => .success [], fun _ _ => .failure 500 "err"⟩
        (fun x => x) false false).totalthreats = 2 := by
  have h := C6_aggregator_count "site.ru" "host"
    ⟨fun _ _ => .success [⟨"p1", "c1", 5, none⟩, ⟨"p2", "c2", 7, some 9⟩],
     fun _ _ => .success [], fun _ _ => .failure 500 "err"⟩
    (fun x => x) false
    [⟨"p1", "c1", 5, none⟩, ⟨"p2", "c2", 7, some 9⟩] [] rfl rfl
  simpa using h.1

/-- C7: in the full-history adapter, if no record carries an expiration
timestamp then `last_expiration` is reported absent, never as the zero-epoch
accumulator seed; and `last_imported` (`last_available`) is reported absent when
no record contributed one. -/
theorem C7_no_epoch_leak (q t : String) (b : B1TD) (s : String → String)
    (dc : Bool) (R : List Threat)
    (h : b.querytide t q = TideResponse.success R)
    (hexp : ∀ th ∈ R, th.expiration = none) :
    (checktide q t b s false dc).last_expiration = none
    ∧ (R = [] → (checktide q t b s false dc).last_available = none) := by
  constructor
  · rw [checktide.eq_2, h]
    by_cases he : R.isEmpty
    · rw [List.isEmpty_iff] at he
      subst he
      simp
    · simp only [he, Bool.false_eq_true, if_false]
      simp [foldl_tideStep_expiration R _ hexp]
  · intro hR
    subst hR
    rw [checktide.eq_2, h]
    simp

/-- Witness for C7 on a one-record history response with no expiration. -/
theorem C7_no_epoch_leak_witness :
    (checktide "site.ru" "host"
        ⟨fun _ _ => .failure 500 "err",
         fun _ _ => .success [⟨"p1", "c1", 5, none⟩],
         fun _ _ => .failure 500 "err"⟩
        (fun x => x) false false).last_expiration = none :=
  (C7_no_epoch_leak "site.ru" "host" _ (fun x => x) false
    [⟨"p1", "c1", 5, none⟩] rfl (by simp)).1

/-- C9: in active-only mode (`len(totalthreats) == 0`), a run over a map of N
valid indicators of which K have a positive active count emits the summary
`Total = N, Active = K, Not active = N - K`, together with one four-column row
per indicator. -/
theorem C9_active_only_summary (active : List (String × ARes))
    (wcs fs : List (String × List String)) (bc cc : List String)
    (h1 : load_list fs "block_categories" = Except.ok bc)
    (h2 : load_list fs "country_codes" = Except.ok cc) :
    gen_report active [] wcs fs =
      Except.ok (Report.activeOnly (active.map activeRow) active.length
        (active.countP fun p => decide (0 < p.2.idx0))
        (active.length - active.countP fun p => decide (0 < p.2.idx0))) := by
  unfold gen_report
  rw [h1, h2]
  simp

/-- Witness for C9: two indicators, one active and one clean. -/
theorem C9_active_only_summary_witness :
    gen_report
        [("a.ru", ARes.online ⟨2, .list ["p"], ["c"], false⟩),
         ("b.cn", ARes.online ⟨0, .list [], [], false⟩)]
        [] [] [("block_categories", []), ("country_codes", [])] =
      Except.ok (Report.activeOnly
        [⟨"a.ru", 2, .list ["p"], ["c"]⟩, ⟨"b.cn", 0, .list [], []⟩] 2 1 1) := by
  have h := C9_active_only_summary
    [("a.ru", ARes.online ⟨2, .list ["p"], ["c"], false⟩),
     ("b.cn", ARes.online ⟨0, .list [], [], false⟩)]
    [] [("block_categories", []), ("country_codes", [])] [] [] rfl rfl
  simpa [activeRow, ARes.idx0, ARes.idx1, ARes.idx2] using h

theorem processLine_activeonly (env : MainEnv) (db wc cdm : Bool)
    (st : LoopState) (line : String) :
    (processLine env db true wc cdm st line).totalthreats = st.totalthreats
    ∧ (processLine env db true wc cdm st line).history_queries =
        st.history_queries := by
  unfold processLine
  by_cases hq : env.data_type (pyRstrip line) ≠ "invalid" <;>
    by_cases hh : env.data_type (pyRstrip line) = "host" ∧ wc = true <;>
      simp [hq, hh]

theorem foldl_processLine_activeonly (env : MainEnv) (db wc cdm : Bool)
    (lines : List String) :
    ∀ st : LoopState,
      (lines.foldl (processLine env db true wc cdm) st).totalthreats =
        st.totalthreats
      ∧ (lines.foldl (processLine env db true wc cdm) st).history_queries =
        st.history_queries := by
  induction lines with
  | nil => intro st; exact ⟨rfl, rfl⟩
  | cons hd tl ih =>
      intro st
      simp only [List.foldl_cons]
      refine ⟨?_, ?_⟩
      · rw [(ih _).1, (processLine_activeonly env db wc cdm st hd).1]
      · rw [(ih _).2, (processLine_activeonly env db wc cdm st hd).2]

/-- C10: when the local-database option is supplied the run is forced into
active-only processing regardless of the other options: the historical query is
never issued (the `checktide` call count stays 0), the historical-summary map
stays empty, and any report the run emits is in the four-column active-only
schema, which carries no action labels. -/
theorem C10_local_forces_active_only (args : Args) (env : MainEnv)
    (fs : List (String × List String)) (lines : List String) (db : String)
    (hdb : args.localdb = some db) :
    (mainState args env lines).totalthreats = []
    ∧ (mainState args env lines).history_queries = 0
    ∧ (∀ r, mainRun args env fs lines = Except.ok r →
        ∃ rows total active notActive,
          r = Report.activeOnly rows total active notActive) := by
  have hao : (args.active || args.localdb.isSome) = true := by
    rw [hdb]
    simp
  have hstate : (mainState args env lines).totalthreats = []
      ∧ (mainState args env lines).history_queries = 0 := by
    unfold mainState
    rw [hao]
    exact foldl_processLine_activeonly env args.localdb.isSome args.webcat
      args.check_domains lines ⟨[], [], [], 0, 0⟩
  refine ⟨hstate.1, hstate.2, ?_⟩
  intro r hr
  unfold mainRun at hr
  unfold gen_report at hr
  rw [hstate.1] at hr
  cases hbc : load_list fs "block_categories" with
  | error e => rw [hbc] at hr; cases hr
  | ok bc =>
      rw [hbc] at hr
      cases hcc : load_list fs "country_codes" with
      | error e => rw [hcc] at hr; cases hr
      | ok cc =>
          rw [hcc] at hr
          simp only [List.isEmpty_nil, if_true] at hr
          cases hr
          exact ⟨_, _, _, _, rfl⟩

/-- Witness for C10: a concrete run with the local-database option set and one
valid input line. -/
theorem C10_local_forces_active_only_witness :
    (mainState ⟨true, true, true, some "tide.db"⟩
        ⟨⟨fun _ _ => .failure 500 "err", fun _ _ => .failure 500 "err",
          fun _ _ => .failure 500 "err"⟩,
         (fun x => x), (fun _ => "host"), (fun _ _ => [])⟩
        ["www.example.com"]).totalthreats = [] :=
  (C10_local_forces_active_only ⟨true, true, true, some "tide.db"⟩
    ⟨⟨fun _ _ => .failure 500 "err", fun _ _ => .failure 500 "err",
      fun _ _ => .failure 500 "err"⟩,
     (fun x => x), (fun _ => "host"), (fun _ _ => [])⟩
    [("block_categories", []), ("country_codes", [])]
    ["www.example.com"] "tide.db" rfl).1

end ThreatReport
